import Mathlib

/-!
Verification of the host-aggregation and session-lifecycle subsystem of
sshbuddy: the configuration aggregation (`LoadConfig` / `SaveConfig` /
`LoadConfigRaw` in `internal/config/storage.go`), the Termix remote
inventory client (`Client.FetchHosts` / `Client.IsTokenExpired` in the
`termix` package), and the reachability probes (`PingHost` /
`StartPingAll` in `internal/tui/ssh.go`).

The Go code is shallowly embedded: filesystem and HTTP effects become an
explicit store state and a network environment (one outcome per network
exchange), `int64` Unix timestamps become `Int`, and Go `error` values
become inductive error types with one constructor per distinct
error-construction site in the source.
-/

namespace SSHBuddy

/-- `models.Host` (package `pkg/models`): the connection-profile record.
The struct definition file is not in the snapshot; fields are taken from
their uses in `storage.go`, `internal/tui/ssh.go`, `internal/tui/form.go`
and the `termix` package (Alias, Hostname, User, Port, IdentityFile,
ProxyJump, Tags, Source), matching the spec's HostProfile. -/
structure Host where
  «alias» : String
  hostname : String
  user : String
  port : String
  identityFile : String
  proxyJump : String
  tags : List String
  source : String
deriving DecidableEq, Repr

/-- `termix.TermixHost`: the remote API record, restricted to the fields
that `convertTermixHost` reads (Name, IP, Port, Username, Tags, Key). -/
structure TermixHost where
  name : String
  ip : String
  port : Int
  username : String
  tags : List String
  key : Option String
deriving DecidableEq, Repr

/-- `termix.convertTermixHost`: maps a Termix record into a `models.Host`;
the numeric port is rendered as text (`strconv.Itoa`), tags are copied,
identity/proxy fields stay empty (the key branch in the source is a
no-op), and the source is tagged `"termix"`. -/
def convertTermixHost (th : TermixHost) : Host :=
  { «alias» := th.name
    hostname := th.ip
    user := th.username
    port := toString th.port
    identityFile := ""
    proxyJump := ""
    tags := th.tags
    source := "termix" }

/-- `termix.Client`: base URL plus the cached JWT and its expiry
(Unix seconds). The embedded `http.Client` carries no data we model. -/
structure Client where
  baseURL : String
  jwt : String
  jwtExpiry : Int
deriving DecidableEq, Repr

/-- `termix.NewClient`. -/
def NewClient (baseURL jwt : String) (jwtExpiry : Int) : Client :=
  { baseURL := baseURL, jwt := jwt, jwtExpiry := jwtExpiry }

/-- `Client.IsTokenExpired`: true when the token is missing, the expiry is
unset, or `now` is within the 300-second (5-minute) buffer before expiry.
`now` stands for `time.Now().Unix()`. -/
def Client.IsTokenExpired (c : Client) (now : Int) : Bool :=
  if c.jwt == "" || c.jwtExpiry == 0 then true
  else decide (c.jwtExpiry - 300 ≤ now)

/-- Go `error` values produced by `Client.FetchHosts` (and by the
`Authenticate` call it makes), one constructor per construction site:
`authRequired` is the distinguished `*termix.AuthError` type; the rest are
`fmt.Errorf` values distinguished by their message. -/
inductive TermixError
  | authRequired (msg : String)
  | authFailed (msg : String)
  | transport (msg : String)
  | transportRetry (msg : String)
  | apiStatus (status : Nat) (preview : String)
  | invalidJSON (preview : String)
deriving DecidableEq, Repr

/-- Outcome of one HTTP exchange for the hosts endpoint: either a
transport-level failure (`c.client.Do` returning an error) or a response
with a status code and a fully read body. -/
inductive FetchOutcome
  | transportErr (msg : String)
  | resp (status : Nat) (body : String)
deriving DecidableEq, Repr

/-- Network/library environment for `Client.FetchHosts`: the outcome of
the i-th `Authenticate` call (an HTTP exchange of its own, abstracted to
its returned token/expiry or error), the outcome of the i-th GET of the
hosts endpoint, and the behaviour of `json.Unmarshal` into
`[]TermixHost` (the standard library decoder, external to the repo). -/
structure FetchEnv where
  auth : Nat → Except TermixError (String × Int)
  fetch : Nat → FetchOutcome
  decode : String → Except String (List TermixHost)

/-- How many `Authenticate` calls and hosts-endpoint requests one
`FetchHosts` call performed. -/
structure FetchTrace where
  authCalls : Nat
  fetchCalls : Nat
deriving DecidableEq, Repr

/-- Body preview truncation as in the source: keep the first `n` bytes and
append `"..."` when the body is longer. -/
def previewBody (n : Nat) (s : String) : String :=
  if s.length > n then String.mk (s.toList.take n) ++ "..." else s

/-- The tail of `Client.FetchHosts` once a response is in hand (source
lines 235-273): non-200 becomes a status error with a 200-byte preview;
a 200 body that `json.Unmarshal` rejects becomes the invalid-JSON error
with a 100-byte preview; otherwise each decoded record is converted. -/
def finishFetch (env : FetchEnv) (c : Client) (status : Nat) (body : String)
    (t : FetchTrace) : Except TermixError (List Host) × Client × FetchTrace :=
  if status ≠ 200 then (.error (.apiStatus status (previewBody 200 body)), c, t)
  else
    match env.decode body with
    | .error _ => (.error (.invalidJSON (previewBody 100 body)), c, t)
    | .ok ths => (.ok (ths.map convertTermixHost), c, t)

/-- The fetch part of `Client.FetchHosts` (source lines 179-273), entered
with client state `c1` after `a` `Authenticate` calls: issue the GET; on
401, fail with `AuthError` when no credentials are supplied, otherwise
re-authenticate once and retry the GET exactly once, after which the
response (first or retried) flows into the common status/decode tail. -/
def fetchFrom (env : FetchEnv) (c1 : Client) (username password : String)
    (a : Nat) : Except TermixError (List Host) × Client × FetchTrace :=
  match env.fetch 0 with
  | .transportErr m => (.error (.transport m), c1, ⟨a, 1⟩)
  | .resp status body =>
    if status = 401 then
      if username = "" || password = "" then
        (.error (.authRequired "termix: authentication required - token invalid"), c1, ⟨a, 1⟩)
      else
        match env.auth a with
        | .error e => (.error e, c1, ⟨a + 1, 1⟩)
        | .ok (jwt, expiry) =>
          let c2 : Client := { c1 with jwt := jwt, jwtExpiry := expiry }
          match env.fetch 1 with
          | .transportErr m => (.error (.transportRetry m), c2, ⟨a + 1, 2⟩)
          | .resp st2 b2 => finishFetch env c2 st2 b2 ⟨a + 1, 2⟩
    else finishFetch env c1 status body ⟨a, 1⟩

/-- `Client.FetchHosts` (source lines 160-274): when the cached token is
expired or missing, fail with the distinguished `AuthError` if no
credentials were supplied, else authenticate first; then perform the GET
with the 401-handling of `fetchFrom`. Returns the result, the client with
its possibly-updated token state, and the call counts. -/
def Client.FetchHosts (c : Client) (username password : String) (now : Int)
    (env : FetchEnv) : Except TermixError (List Host) × Client × FetchTrace :=
  if c.IsTokenExpired now then
    if username = "" || password = "" then
      (.error (.authRequired "termix: authentication required - token expired or missing"), c, ⟨0, 0⟩)
    else
      match env.auth 0 with
      | .error e => (.error e, c, ⟨1, 0⟩)
      | .ok (jwt, expiry) =>
        fetchFrom env { c with jwt := jwt, jwtExpiry := expiry } username password 1
  else fetchFrom env c username password 0

/-! ## Configuration aggregation (`internal/config/storage.go`) -/

/-- `models.SourcesConfig`: the three source toggles. -/
structure SourcesConfig where
  sshBuddyEnabled : Bool
  sshConfigEnabled : Bool
  termixEnabled : Bool
deriving DecidableEq, Repr

/-- `models.TermixConfig`: remote source settings plus the cached session
(JWT and its expiry). -/
structure TermixConfig where
  enabled : Bool
  baseURL : String
  jwt : String
  jwtExpiry : Int
deriving DecidableEq, Repr

/-- `models.SSHConfig`: ssh-config source settings (custom path omitted;
the grammar import is out of scope). -/
structure SSHConfig where
  enabled : Bool
deriving DecidableEq, Repr

/-- `models.Config`: the persisted configuration surface. -/
structure Config where
  hosts : List Host
  theme : String
  sources : SourcesConfig
  termix : TermixConfig
  ssh : SSHConfig
deriving DecidableEq, Repr

/-- The defaults `LoadConfig`/`LoadConfigRaw` build when the config file
does not exist (source lines 44-59). -/
def defaultConfig : Config :=
  { hosts := []
    theme := ""
    sources := { sshBuddyEnabled := true, sshConfigEnabled := true, termixEnabled := false }
    termix := { enabled := false, baseURL := "", jwt := "", jwtExpiry := 0 }
    ssh := { enabled := true } }

/-- State of the config file on disk: absent, present but not decodable
as a `models.Config` (a `json.Unmarshal` failure), or holding a config. -/
inductive StoreState
  | missing
  | corrupt
  | present (c : Config)
deriving DecidableEq, Repr

/-- Errors returned by `LoadConfig`/`LoadConfigRaw`: an unreadable store,
the `*termix.AuthError` propagated unchanged (source line 125), or any
other Termix failure wrapped with the config-path hint (line 133). -/
inductive LoadError
  | corruptStore
  | termixAuth (msg : String)
  | termixWrapped (e : TermixError) (configPath : String)
deriving DecidableEq, Repr

/-- Reading the config file (shared head of `LoadConfig` and
`LoadConfigRaw`): missing file yields the defaults, an undecodable file
is an error, otherwise the stored config. -/
def loadStored : StoreState → Except LoadError Config
  | .missing => .ok defaultConfig
  | .corrupt => .error .corruptStore
  | .present c => .ok c

/-- Source lines 74-78: stored hosts with an empty `Source` are rewritten
to `"manual"`. -/
def markManual (hosts : List Host) : List Host :=
  hosts.map fun h => if h.source = "" then { h with source := "manual" } else h

def aliasesOf (hosts : List Host) : List String := hosts.map (·.«alias»)

/-- Tagging loops of source lines 98-100 (ssh-config hosts) — the termix
hosts arrive already tagged by `convertTermixHost`. -/
def tagSource (src : String) (hosts : List Host) : List Host :=
  hosts.map fun h => { h with source := src }

/-- The append-if-alias-unseen loop used for ssh-config hosts (source
lines 103-108) and termix hosts (lines 141-146): a new host whose alias is
already in the seen set is skipped, otherwise it is appended and its alias
marked seen. The Go `map[string]bool` becomes a list with membership. -/
def addNonConflicting (hosts : List Host) (seen : List String) :
    List Host → List Host × List String
  | [] => (hosts, seen)
  | h :: rest =>
    if seen.contains h.«alias» then addNonConflicting hosts seen rest
    else addNonConflicting (hosts ++ [h]) (h.«alias» :: seen) rest

/-- The host filter of `SaveConfig` (source lines 174-178): drop
ssh-config- and termix-tagged hosts, keep the rest. -/
def saveConfigHosts (hosts : List Host) : List Host :=
  hosts.filter fun h => h.source != "ssh-config" && h.source != "termix"

/-- `SaveConfig` (source lines 159-186), modelled as the value it
persists: everything is copied except that ephemeral (ssh-config/termix)
hosts are filtered out of the host list. -/
def SaveConfig (config : Config) : Config :=
  { theme := config.theme
    sources := config.sources
    termix := config.termix
    ssh := config.ssh
    hosts := saveConfigHosts config.hosts }

/-- The manual block of `LoadConfig` (source lines 80-91): when the
SSHBuddy source is enabled, start from the stored hosts with every alias
registered as seen; when disabled, the stored hosts are cleared from the
working list. -/
def manualStage (cfg1 : Config) : List Host × List String :=
  if cfg1.sources.sshBuddyEnabled then (cfg1.hosts, aliasesOf cfg1.hosts)
  else ([], [])

/-- The ssh-config block of `LoadConfig` (source lines 93-110): when
enabled and the native config loads without error, tag its hosts
`"ssh-config"` and append the non-conflicting ones; a load error is
silently ignored. -/
def sshStage (cfg1 : Config) (sshResult : Except Unit (List Host))
    (st : List Host × List String) : List Host × List String :=
  if cfg1.sources.sshConfigEnabled && cfg1.ssh.enabled then
    match sshResult with
    | .ok sshHosts => addNonConflicting st.1 st.2 (tagSource "ssh-config" sshHosts)
    | .error _ => st
  else st

/-- `LoadConfig` (source lines 34-157). Inputs beyond the store state:
the result of `ssh.LoadHostsFromSSHConfig` (the pre-parsed native config,
whose errors the source silently ignores at line 96), the Termix network
environment with the current time, and the config path used in the error
hint. Returns the result and the post-call store state (`SaveConfig` at
line 152 is the only write). -/
def LoadConfig (store : StoreState) (sshResult : Except Unit (List Host))
    (env : FetchEnv) (now : Int) (configPath : String) :
    Except LoadError Config × StoreState :=
  match loadStored store with
  | .error e => (.error e, store)
  | .ok cfg0 =>
    let cfg1 : Config := { cfg0 with hosts := markManual cfg0.hosts }
    let st2 : List Host × List String := sshStage cfg1 sshResult (manualStage cfg1)
    if cfg1.sources.termixEnabled && cfg1.termix.enabled && cfg1.termix.baseURL != "" then
      let client := NewClient cfg1.termix.baseURL cfg1.termix.jwt cfg1.termix.jwtExpiry
      match client.FetchHosts "" "" now env with
      | (.error (.authRequired m), _, _) => (.error (.termixAuth m), store)
      | (.error e, _, _) => (.error (.termixWrapped e configPath), store)
      | (.ok termixHosts, client1, _) =>
        let st3 := addNonConflicting st2.1 st2.2 termixHosts
        let cfg2 : Config := { cfg1 with hosts := st3.1 }
        if client1.jwt != cfg1.termix.jwt || client1.jwtExpiry != cfg1.termix.jwtExpiry then
          let cfg3 : Config :=
            { cfg2 with termix :=
                { cfg2.termix with jwt := client1.jwt, jwtExpiry := client1.jwtExpiry } }
          (.ok cfg3, .present (SaveConfig cfg3))
        else (.ok cfg2, store)
    else (.ok { cfg1 with hosts := st2.1 }, store)

/-- `LoadConfigRaw` (source lines 208-245): the config file alone, no
external sources fetched and no host rewriting. -/
def LoadConfigRaw (store : StoreState) : Except LoadError Config :=
  loadStored store

/-! ## Reachability probes (`internal/tui/ssh.go`) -/

/-- Outcome of one `ping` invocation (`cmd.CombinedOutput`): whether the
command failed (non-zero exit or failure to start) and its combined
output. -/
structure PingOutcome where
  failed : Bool
  output : String
deriving DecidableEq, Repr

/-- `tui.PingResultMsg`. -/
structure PingResultMsg where
  host : Host
  status : Bool
  pingTime : String
deriving DecidableEq, Repr

/-- `strings.HasPrefix` over character lists (Go strings are byte
slices; the output of `ping` is ASCII, so characters stand for bytes). -/
def hasPrefixChars : List Char → List Char → Bool
  | _, [] => true
  | [], _ :: _ => false
  | c :: cs, p :: ps => c == p && hasPrefixChars cs ps

/-- `strings.HasSuffix` over character lists. -/
def hasSuffixChars (l s : List Char) : Bool :=
  hasPrefixChars l.reverse s.reverse

/-- The slice `outputStr[idx+len(pat):]` where `idx` is
`strings.Index(outputStr, pat)`, or `none` when the pattern (assumed
non-empty, here always `"time="`) does not occur. -/
def afterFirstSub : List Char → List Char → Option (List Char)
  | [], _ => none
  | c :: cs, pat =>
    if hasPrefixChars (c :: cs) pat then some ((c :: cs).drop pat.length)
    else afterFirstSub cs pat

/-- The ASCII white space characters `strings.TrimSpace` strips. -/
def isSpaceChar (c : Char) : Bool :=
  c == ' ' || c == '\t' || c == '\n' || c == '\u000b' || c == '\u000c' || c == '\r'

/-- `strings.TrimSpace` over character lists. -/
def trimChars (l : List Char) : List Char :=
  ((l.dropWhile isSpaceChar).reverse.dropWhile isSpaceChar).reverse

/-- The latency extraction of `PingHost` (source lines 67-87): find the
first `"time="` in the output, cut at the first space/newline/carriage
return after it (`strings.IndexAny`), trim, and append `"ms"` unless
already suffixed; any missing piece leaves the latency empty. -/
def parsePingTime (outputStr : String) : String :=
  match afterFirstSub outputStr.toList "time=".toList with
  | none => ""
  | some timeStr =>
    match timeStr.findIdx? (fun ch => ch == ' ' || ch == '\n' || ch == '\r') with
    | none => ""
    | some endIdx =>
      let timeValue := trimChars (timeStr.take endIdx)
      if hasSuffixChars timeValue "ms".toList then String.mk timeValue
      else String.mk timeValue ++ "ms"

/-- `tui.PingHost` (source lines 61-95): one probe always produces a
`PingResultMsg`; a failed command means unreachable with no latency, a
successful one parses the latency from the output. -/
def PingHost (host : Host) (outcome : PingOutcome) : PingResultMsg :=
  { host := host
    status := !outcome.failed
    pingTime := if outcome.failed then "" else parsePingTime outcome.output }

/-- `tui.StartPingAll` (source lines 104-110): one probe command per host,
batched; the environment gives each host's ping outcome. -/
def StartPingAll (hosts : List Host) (pingEnv : Host → PingOutcome) :
    List PingResultMsg :=
  hosts.map fun h => PingHost h (pingEnv h)

/-! ## Structural lemmas about the aggregation loops -/


theorem aliasesOf_append (l1 l2 : List Host) :
    aliasesOf (l1 ++ l2) = aliasesOf l1 ++ aliasesOf l2 := by
  simp [aliasesOf]

theorem aliasesOf_markManual (l : List Host) :
    aliasesOf (markManual l) = aliasesOf l := by
  unfold aliasesOf markManual
  rw [List.map_map]
  apply List.map_congr_left
  intro h _
  by_cases hc : h.source = "" <;> simp [hc]

theorem aliasesOf_tagSource (s : String) (l : List Host) :
    aliasesOf (tagSource s l) = aliasesOf l := by
  unfold aliasesOf tagSource
  rw [List.map_map]
  rfl

theorem addNonConflicting_eq_append (l : List Host) :
    ∀ hosts seen, ∃ extra, (addNonConflicting hosts seen l).1 = hosts ++ extra := by
  induction l with
  | nil => intro hosts seen; exact ⟨[], by simp [addNonConflicting]⟩
  | cons h t ih =>
    intro hosts seen
    unfold addNonConflicting
    cases hc : seen.contains h.«alias» with
    | true => simpa [hc] using ih hosts seen
    | false =>
      obtain ⟨extra, he⟩ := ih (hosts ++ [h]) (h.«alias» :: seen)
      exact ⟨h :: extra, by simp [hc, he]⟩

theorem addNonConflicting_mem (l : List Host) :
    ∀ hosts seen h, h ∈ (addNonConflicting hosts seen l).1 →
      h ∈ hosts ∨ (h ∈ l ∧ ¬ h.«alias» ∈ seen) := by
  induction l with
  | nil => intro hosts seen h hm; simp [addNonConflicting] at hm; exact .inl hm
  | cons h0 t ih =>
    intro hosts seen h hm
    unfold addNonConflicting at hm
    cases hc : seen.contains h0.«alias» with
    | true =>
      rw [hc] at hm; simp at hm
      rcases ih hosts seen h hm with h1 | ⟨h2, h3⟩
      · exact .inl h1
      · exact .inr ⟨List.mem_cons_of_mem _ h2, h3⟩
    | false =>
      rw [hc] at hm; simp at hm
      rcases ih (hosts ++ [h0]) (h0.«alias» :: seen) h hm with h1 | ⟨h2, h3⟩
      · rcases List.mem_append.mp h1 with h4 | h4
        · exact .inl h4
        · simp at h4; subst h4
          refine .inr ⟨List.mem_cons_self _ _, ?_⟩
          intro hin
          have : seen.contains h.«alias» = true := List.elem_iff.mpr hin
          rw [hc] at this; exact Bool.false_ne_true this
      · refine .inr ⟨List.mem_cons_of_mem _ h2, fun hin => h3 (List.mem_cons_of_mem _ hin)⟩

theorem addNonConflicting_nodup (l : List Host) :
    ∀ hosts seen, (aliasesOf hosts).Nodup →
      (∀ a ∈ aliasesOf hosts, a ∈ seen) →
      (aliasesOf (addNonConflicting hosts seen l).1).Nodup ∧
        ∀ a ∈ aliasesOf (addNonConflicting hosts seen l).1,
          a ∈ (addNonConflicting hosts seen l).2 := by
  induction l with
  | nil => intro hosts seen h1 h2; exact ⟨h1, h2⟩
  | cons h t ih =>
    intro hosts seen h1 h2
    unfold addNonConflicting
    cases hc : seen.contains h.«alias» with
    | true => exact ih hosts seen h1 h2
    | false =>
      have hnotin : ¬ h.«alias» ∈ seen := by
        intro hin
        have hct : seen.contains h.«alias» = true := List.elem_iff.mpr hin
        rw [hc] at hct; exact Bool.false_ne_true hct
      apply ih
      · rw [aliasesOf_append]
        have hsing : aliasesOf [h] = [h.«alias»] := rfl
        rw [hsing]
        refine List.Nodup.append h1 (List.nodup_singleton _) ?_
        intro a ha hb
        rw [List.mem_singleton] at hb
        subst hb
        exact hnotin (h2 _ ha)
      · intro a ha
        rw [aliasesOf_append] at ha
        rcases List.mem_append.mp ha with h4 | h4
        · exact List.mem_cons_of_mem _ (h2 _ h4)
        · simp [aliasesOf] at h4; subst h4; exact List.mem_cons_self _ _

/-! ## Structural lemmas about the Termix client -/

theorem finishFetch_ok (env : FetchEnv) (c : Client) (status : Nat) (body : String)
    (t : FetchTrace) (r : List Host) (cl : Client) (t' : FetchTrace)
    (h : finishFetch env c status body t = (.ok r, cl, t')) :
    cl = c ∧ t' = t ∧ status = 200 ∧
      ∃ ths : List TermixHost, env.decode body = .ok ths ∧ r = ths.map convertTermixHost := by
  unfold finishFetch at h
  split at h
  · simp at h
  · rename_i hst
    rcases hd : env.decode body with e | ths <;> rw [hd] at h
    · simp at h
    · simp only [Prod.mk.injEq, Except.ok.injEq] at h
      obtain ⟨h1, h2, h3⟩ := h
      exact ⟨h2.symm, h3.symm, by omega, ths, rfl, h1.symm⟩

theorem fetchFrom_ok_shape (env : FetchEnv) (c1 : Client) (u p : String) (a : Nat)
    (r : List Host) (cl : Client) (t : FetchTrace)
    (h : fetchFrom env c1 u p a = (.ok r, cl, t)) :
    ∃ ths : List TermixHost, r = ths.map convertTermixHost := by
  unfold fetchFrom at h
  rcases hf : env.fetch 0 with m | ⟨status, body⟩ <;> rw [hf] at h <;> simp only [] at h
  · simp at h
  · by_cases h401 : status = 401
    · rw [if_pos h401] at h
      by_cases hcred : (decide (u = "") || decide (p = "")) = true
      · rw [if_pos hcred] at h; simp at h
      · rw [if_neg hcred] at h
        rcases ha : env.auth a with e | ⟨jwt, expiry⟩ <;> rw [ha] at h <;> simp only [] at h
        · simp at h
        · rcases hf1 : env.fetch 1 with m | ⟨st2, b2⟩ <;> rw [hf1] at h <;> simp only [] at h
          · simp at h
          · obtain ⟨_, _, _, ths, _, hr⟩ := finishFetch_ok _ _ _ _ _ _ _ _ h
            exact ⟨ths, hr⟩
    · rw [if_neg h401] at h
      obtain ⟨_, _, _, ths, _, hr⟩ := finishFetch_ok _ _ _ _ _ _ _ _ h
      exact ⟨ths, hr⟩

theorem fetchFrom_empty_creds_ok_client (env : FetchEnv) (c1 : Client) (a : Nat)
    (r : List Host) (cl : Client) (t : FetchTrace)
    (h : fetchFrom env c1 "" "" a = (.ok r, cl, t)) : cl = c1 := by
  unfold fetchFrom at h
  rcases hf : env.fetch 0 with m | ⟨status, body⟩ <;> rw [hf] at h <;> simp only [] at h
  · simp at h
  · by_cases h401 : status = 401
    · rw [if_pos h401] at h; simp at h
    · rw [if_neg h401] at h
      exact (finishFetch_ok _ _ _ _ _ _ _ _ h).1

theorem fetchHosts_ok_shape (c : Client) (u p : String) (now : Int) (env : FetchEnv)
    (r : List Host) (cl : Client) (t : FetchTrace)
    (h : c.FetchHosts u p now env = (.ok r, cl, t)) :
    ∃ ths : List TermixHost, r = ths.map convertTermixHost := by
  unfold Client.FetchHosts at h
  by_cases hexp : c.IsTokenExpired now = true
  · rw [if_pos hexp] at h
    by_cases hcred : (decide (u = "") || decide (p = "")) = true
    · rw [if_pos hcred] at h; simp at h
    · rw [if_neg hcred] at h
      rcases ha : env.auth 0 with e | ⟨jwt, expiry⟩ <;> rw [ha] at h <;> simp only [] at h
      · simp at h
      · exact fetchFrom_ok_shape _ _ _ _ _ _ _ _ h
  · rw [if_neg hexp] at h
    exact fetchFrom_ok_shape _ _ _ _ _ _ _ _ h

theorem fetchHosts_empty_creds_ok_client (c : Client) (now : Int) (env : FetchEnv)
    (r : List Host) (cl : Client) (t : FetchTrace)
    (h : c.FetchHosts "" "" now env = (.ok r, cl, t)) : cl = c := by
  unfold Client.FetchHosts at h
  by_cases hexp : c.IsTokenExpired now = true
  · rw [if_pos hexp] at h; simp at h
  · rw [if_neg hexp] at h
    exact fetchFrom_empty_creds_ok_client _ _ _ _ _ _ h

/-! ## Structural lemmas about LoadConfig -/

theorem convert_source (ths : List TermixHost) (h : Host)
    (hm : h ∈ ths.map convertTermixHost) : h.source = "termix" := by
  rcases List.mem_map.mp hm with ⟨th, _, rfl⟩; rfl

theorem loadConfig_store_unchanged (store : StoreState) (sshResult : Except Unit (List Host))
    (env : FetchEnv) (now : Int) (path : String) :
    (LoadConfig store sshResult env now path).2 = store := by
  unfold LoadConfig
  rcases store with _ | _ | cfg0
  · rfl
  · rfl
  · simp only [loadStored]
    split
    · split
      · rfl
      · rfl
      · rename_i termixHosts client1 snd heq
        have hcl := fetchHosts_empty_creds_ok_client _ _ _ _ _ _ heq
        subst hcl
        simp [NewClient]
    · rfl

theorem addNonConflicting_seen_superset (l : List Host) :
    ∀ hosts seen a, a ∈ seen → a ∈ (addNonConflicting hosts seen l).2 := by
  induction l with
  | nil => intro hosts seen a ha; exact ha
  | cons h t ih =>
    intro hosts seen a ha
    unfold addNonConflicting
    cases hc : seen.contains h.«alias» with
    | true => exact ih hosts seen a ha
    | false => exact ih _ _ a (List.mem_cons_of_mem _ ha)

theorem markManual_source_ne (l : List Host) :
    ∀ h ∈ markManual l, h.source ≠ "" := by
  intro h hm
  rcases List.mem_map.mp hm with ⟨h0, _, rfl⟩
  by_cases hs : h0.source = "" <;> simp [hs]

theorem manualStage_inv (cfg1 : Config) (h0 : (aliasesOf cfg1.hosts).Nodup) :
    (aliasesOf (manualStage cfg1).1).Nodup ∧
      ∀ a ∈ aliasesOf (manualStage cfg1).1, a ∈ (manualStage cfg1).2 := by
  unfold manualStage
  split
  · exact ⟨h0, fun a ha => ha⟩
  · simp [aliasesOf]

theorem sshStage_inv (cfg1 : Config) (r : Except Unit (List Host))
    (st : List Host × List String)
    (h : (aliasesOf st.1).Nodup ∧ ∀ a ∈ aliasesOf st.1, a ∈ st.2) :
    (aliasesOf (sshStage cfg1 r st).1).Nodup ∧
      ∀ a ∈ aliasesOf (sshStage cfg1 r st).1, a ∈ (sshStage cfg1 r st).2 := by
  unfold sshStage
  split
  · rcases r with e | sshHosts
    · exact h
    · exact addNonConflicting_nodup _ _ _ h.1 h.2
  · exact h

theorem manualStage_mem (cfg1 : Config) (h : Host)
    (hm : h ∈ (manualStage cfg1).1) : h ∈ cfg1.hosts := by
  unfold manualStage at hm
  split at hm
  · exact hm
  · simp at hm

theorem manualStage_seen (cfg1 : Config) (henabled : cfg1.sources.sshBuddyEnabled = true) :
    (manualStage cfg1).2 = aliasesOf cfg1.hosts := by
  unfold manualStage
  rw [if_pos henabled]

theorem sshStage_mem (cfg1 : Config) (r : Except Unit (List Host))
    (st : List Host × List String) (h : Host)
    (hm : h ∈ (sshStage cfg1 r st).1) :
    h ∈ st.1 ∨ (h.source = "ssh-config" ∧ ¬ h.«alias» ∈ st.2) := by
  unfold sshStage at hm
  split at hm
  · rcases r with e | sshHosts
    · exact .inl hm
    · rcases addNonConflicting_mem _ _ _ _ hm with h1 | ⟨h2, h3⟩
      · exact .inl h1
      · rcases List.mem_map.mp h2 with ⟨h0, _, rfl⟩
        exact .inr ⟨rfl, h3⟩
  · exact .inl hm

theorem sshStage_seen_superset (cfg1 : Config) (r : Except Unit (List Host))
    (st : List Host × List String) (a : String) (ha : a ∈ st.2) :
    a ∈ (sshStage cfg1 r st).2 := by
  unfold sshStage
  split
  · rcases r with e | sshHosts
    · exact ha
    · exact addNonConflicting_seen_superset _ _ _ _ ha
  · exact ha

theorem sshStage_append (cfg1 : Config) (r : Except Unit (List Host))
    (st : List Host × List String) :
    ∃ extra, (sshStage cfg1 r st).1 = st.1 ++ extra := by
  unfold sshStage
  split
  · rcases r with e | sshHosts
    · exact ⟨[], by simp⟩
    · exact addNonConflicting_eq_append _ _ _
  · exact ⟨[], by simp⟩

theorem loadConfig_ok_shape (store : StoreState) (cfg0 : Config)
    (sshResult : Except Unit (List Host))
    (env : FetchEnv) (now : Int) (path : String) (cfg : Config)
    (hload : loadStored store = .ok cfg0)
    (hok : (LoadConfig store sshResult env now path).1 = .ok cfg) :
    ∃ termixHosts : List Host,
      (∀ h ∈ termixHosts, h.source = "termix") ∧
      cfg.hosts =
        (addNonConflicting
          (sshStage { cfg0 with hosts := markManual cfg0.hosts } sshResult
            (manualStage { cfg0 with hosts := markManual cfg0.hosts })).1
          (sshStage { cfg0 with hosts := markManual cfg0.hosts } sshResult
            (manualStage { cfg0 with hosts := markManual cfg0.hosts })).2
          termixHosts).1 := by
  unfold LoadConfig at hok
  rw [hload] at hok
  simp only [] at hok
  split at hok
  · rcases hfetch : Client.FetchHosts
        (NewClient { cfg0 with hosts := markManual cfg0.hosts }.termix.baseURL
          { cfg0 with hosts := markManual cfg0.hosts }.termix.jwt
          { cfg0 with hosts := markManual cfg0.hosts }.termix.jwtExpiry) "" "" now env
      with ⟨res, client1, tr⟩
    rw [hfetch] at hok
    rcases res with e | termixHosts
    · rcases e <;> simp at hok
    · simp only [] at hok
      refine ⟨termixHosts, ?_, ?_⟩
      · intro h hm
        obtain ⟨ths, rfl⟩ := fetchHosts_ok_shape _ _ _ _ _ _ _ _ hfetch
        exact convert_source _ _ hm
      · split at hok <;>
          (simp only [Except.ok.injEq] at hok; subst hok; rfl)
  · simp only [Except.ok.injEq] at hok
    subst hok
    exact ⟨[], by simp, rfl⟩

/-! ## Claims about the Termix client (C2, C5, C6) -/

theorem finishFetch_client_trace (env : FetchEnv) (c : Client) (status : Nat)
    (body : String) (t : FetchTrace) :
    (finishFetch env c status body t).2.2 = t := by
  unfold finishFetch
  split
  · rfl
  · rcases env.decode body with e | ths <;> rfl

theorem previewBody_length_le (n : Nat) (s : String) :
    (previewBody n s).length ≤ n + 3 := by
  unfold previewBody
  split
  · rename_i hgt
    have h1 : (String.mk (s.toList.take n) ++ "...").length
        = (s.toList.take n).length + 3 := by
      rw [String.length_append]
      rfl
    rw [h1]
    have h2 : (s.toList.take n).length ≤ n := by
      rw [List.length_take]
      omega
    omega
  · rename_i hle
    omega

/-- An unused-everything environment for concrete witnesses. -/
def unusedEnv : FetchEnv :=
  { auth := fun _ => .error (.authFailed "unused")
    fetch := fun _ => .transportErr "unused"
    decode := fun _ => .error "unused" }

/-- C5: a cached session whose token is absent or whose expiry is within
the 5-minute margin of `now`, combined with empty credentials, makes
`FetchHosts` return the distinguished auth-required error immediately:
no `Authenticate` call and no hosts request are performed. -/
theorem c5_expired_session_no_credentials (c : Client) (now : Int) (env : FetchEnv)
    (hsess : c.jwt = "" ∨ c.jwtExpiry - 300 ≤ now) :
    c.FetchHosts "" "" now env =
      (.error (.authRequired "termix: authentication required - token expired or missing"),
        c, ⟨0, 0⟩) := by
  have hexp : c.IsTokenExpired now = true := by
    unfold Client.IsTokenExpired
    rcases hsess with h | h
    · simp [h]
    · by_cases hj : (c.jwt == "" || c.jwtExpiry == 0) = true
      · simp [hj]
      · rw [if_neg hj]
        exact decide_eq_true h
  unfold Client.FetchHosts
  rw [if_pos hexp]
  simp

theorem c5_expired_session_no_credentials_witness :
    ((NewClient "http://termix.local" "cachedtoken" 1000).jwt = "" ∨
      (NewClient "http://termix.local" "cachedtoken" 1000).jwtExpiry - 300 ≤ 900) ∧
    (NewClient "http://termix.local" "cachedtoken" 1000).FetchHosts "" "" 900 unusedEnv =
      (.error (.authRequired "termix: authentication required - token expired or missing"),
        NewClient "http://termix.local" "cachedtoken" 1000, ⟨0, 0⟩) :=
  ⟨Or.inr (by decide), c5_expired_session_no_credentials _ _ _ (Or.inr (by decide))⟩



/-- C6: a 200 response whose body the decoder rejects yields the
invalid-JSON error carrying a preview of at most 100 bytes plus the
ellipsis; that error is a different value from every auth-required and
every transport error. -/
theorem c6_invalid_response (c : Client) (u p : String) (now : Int) (env : FetchEnv)
    (body : String) (e : String)
    (hexp : c.IsTokenExpired now = false)
    (hresp : env.fetch 0 = .resp 200 body)
    (hdec : env.decode body = .error e) :
    (c.FetchHosts u p now env).1 = .error (.invalidJSON (previewBody 100 body)) ∧
    (previewBody 100 body).length ≤ 103 ∧
    (∀ m, TermixError.invalidJSON (previewBody 100 body) ≠ .authRequired m) ∧
    (∀ m, TermixError.invalidJSON (previewBody 100 body) ≠ .transport m) := by
  refine ⟨?_, previewBody_length_le 100 body, fun m h => ?_, fun m h => ?_⟩
  · unfold Client.FetchHosts
    rw [if_neg (by simp [hexp])]
    unfold fetchFrom
    rw [hresp]
    simp only []
    rw [if_neg (by omega)]
    unfold finishFetch
    rw [if_neg (by omega)]
    rw [hdec]
  · cases h
  · cases h

theorem c6_invalid_response_witness :
    (NewClient "http://termix.local" "tok" 1000000).IsTokenExpired 0 = false ∧
    ({ unusedEnv with fetch := fun _ => .resp 200 "not json" } : FetchEnv).fetch 0 =
      .resp 200 "not json" ∧
    ({ unusedEnv with fetch := fun _ => .resp 200 "not json" } : FetchEnv).decode "not json" =
      .error "unused" ∧
    ((NewClient "http://termix.local" "tok" 1000000).FetchHosts "" "" 0
        { unusedEnv with fetch := fun _ => .resp 200 "not json" }).1 =
      .error (.invalidJSON (previewBody 100 "not json")) :=
  ⟨by decide, rfl, rfl,
    (c6_invalid_response _ "" "" 0 _ "not json" "unused" (by decide) rfl rfl).1⟩



/-- The Go type assertion `err.(*termix.AuthError)`: whether an error
value is the distinguished authentication-required type. -/
def TermixError.isAuthRequired : TermixError → Bool
  | .authRequired _ => true
  | _ => false

/-- Whether a `FetchHosts` result is the distinguished auth-required
error. -/
def resultIsAuthRequired (r : Except TermixError (List Host)) : Bool :=
  match r with
  | .error e => e.isAuthRequired
  | .ok _ => false

/-- Environment in which the hosts endpoint answers 401 both times while
`Authenticate` succeeds. -/
def doubleUnauthorizedEnv : FetchEnv :=
  { auth := fun _ => .ok ("newtok", 7200)
    fetch := fun i => if i = 0 then .resp 401 "unauthorized" else .resp 401 "still unauthorized"
    decode := fun _ => .error "unused" }

/-- C2 counterexample: with a valid cached token and credentials
supplied, a 401 answered again by 401 on the retried fetch makes
`FetchHosts` return the generic status error
`termix: API returned status 401: ...`, not the distinguished
auth-required error the claim promises. -/
theorem c2_second_unauthorized_counterexample :
    (NewClient "http://termix.local" "tok" 1000000).FetchHosts "user" "pass" 0
        doubleUnauthorizedEnv =
      (.error (.apiStatus 401 "still unauthorized"),
        NewClient "http://termix.local" "newtok" 7200, ⟨1, 2⟩) ∧
    resultIsAuthRequired
      ((NewClient "http://termix.local" "tok" 1000000).FetchHosts "user" "pass" 0
        doubleUnauthorizedEnv).1 = false := by
  constructor
  · rfl
  · rfl

/-- C2 (amended): with a usable token and credentials supplied, a 401 on
the first fetch triggers exactly one re-authentication and exactly one
retried fetch (the trace is one auth call and two fetches, whatever the
retry returns); if the retried fetch is also answered 401 the result is
the generic `termix: API returned status 401` error rather than another
re-authentication or retry; only when credentials are unavailable does
the 401 surface the distinguished auth-required error. -/
theorem c2_single_reauth_single_retry (c : Client) (u p : String) (now : Int)
    (env : FetchEnv) (b0 jwt : String) (expiry : Int)
    (hexp : c.IsTokenExpired now = false)
    (hu : u ≠ "") (hp : p ≠ "")
    (hf0 : env.fetch 0 = .resp 401 b0)
    (ha : env.auth 0 = .ok (jwt, expiry)) :
    (c.FetchHosts u p now env).2.2 = ⟨1, 2⟩ ∧
    (∀ b1, env.fetch 1 = .resp 401 b1 →
      (c.FetchHosts u p now env).1 = .error (.apiStatus 401 (previewBody 200 b1))) ∧
    (c.FetchHosts "" "" now env).1 =
      .error (.authRequired "termix: authentication required - token invalid") := by
  have hred : c.FetchHosts u p now env =
      (match env.fetch 1 with
        | .transportErr m =>
          (.error (.transportRetry m), { c with jwt := jwt, jwtExpiry := expiry }, ⟨1, 2⟩)
        | .resp st2 b2 =>
          finishFetch env { c with jwt := jwt, jwtExpiry := expiry } st2 b2 ⟨1, 2⟩) := by
    unfold Client.FetchHosts
    rw [if_neg (by simp [hexp])]
    unfold fetchFrom
    rw [hf0]
    simp only []
    rw [if_pos trivial]
    rw [if_neg (by simp [hu, hp])]
    rw [ha]
  refine ⟨?_, ?_, ?_⟩
  · rw [hred]
    rcases hf1 : env.fetch 1 with m | ⟨st2, b2⟩
    · rfl
    · exact finishFetch_client_trace _ _ _ _ _
  · intro b1 hf1
    rw [hred, hf1]
    simp only []
    unfold finishFetch
    rw [if_pos (by omega)]
  · unfold Client.FetchHosts
    rw [if_neg (by simp [hexp])]
    unfold fetchFrom
    rw [hf0]
    simp only []
    rw [if_pos trivial]
    rw [if_pos (by simp)]

theorem c2_single_reauth_single_retry_witness :
    (NewClient "http://termix.local" "tok" 1000000).IsTokenExpired 0 = false ∧
    doubleUnauthorizedEnv.fetch 0 = .resp 401 "unauthorized" ∧
    doubleUnauthorizedEnv.auth 0 = .ok ("newtok", 7200) ∧
    ((NewClient "http://termix.local" "tok" 1000000).FetchHosts "user" "pass" 0
        doubleUnauthorizedEnv).2.2 = ⟨1, 2⟩ :=
  ⟨by decide, rfl, rfl,
    (c2_single_reauth_single_retry _ "user" "pass" 0 _ "unauthorized" "newtok" 7200
      (by decide) (by decide) (by decide) rfl rfl).1⟩

/-! ## Claim about the probe scheduler (C9) -/

/-- C9: probing K hosts emits exactly K results, in host order (one per
host, so K results for K hosts); a probe whose command fails (including
failing to start) degrades to an unreachable result with an empty latency
instead of an error; and a successful probe whose output has no `"time="`
marker yields a result with an empty latency rather than an error. -/
theorem c9_probe_all_results (hosts : List Host) (pingEnv : Host → PingOutcome) :
    (StartPingAll hosts pingEnv).map (fun r => r.host) = hosts ∧
    (StartPingAll hosts pingEnv).length = hosts.length ∧
    (∀ h o, o.failed = true →
      PingHost h o = { host := h, status := false, pingTime := "" }) ∧
    (∀ h o, afterFirstSub o.output.toList "time=".toList = none →
      (PingHost h o).pingTime = "") := by
  refine ⟨?_, ?_, ?_, ?_⟩
  · unfold StartPingAll
    rw [List.map_map]
    have hid : ((fun r => r.host) ∘ fun h => PingHost h (pingEnv h)) = id := by
      funext h; rfl
    rw [hid, List.map_id]
  · unfold StartPingAll
    rw [List.length_map]
  · intro h o ho
    unfold PingHost
    rw [ho]
    rfl
  · intro h o hsub
    unfold PingHost
    have hparse : parsePingTime o.output = "" := by
      unfold parsePingTime
      rw [hsub]
    rw [hparse]
    split <;> rfl

/-- A sample host for concrete witnesses. -/
def probeHostW : Host :=
  { «alias» := "a"
    hostname := "1.1.1.1"
    user := "root"
    port := "22"
    identityFile := ""
    proxyJump := ""
    tags := []
    source := "manual" }

/-- A successful ping whose output carries no parseable latency. -/
def probeOutcomeW : PingOutcome :=
  { failed := false, output := "no latency marker here" }

theorem c9_probe_all_results_witness :
    probeOutcomeW.failed = false ∧
    afterFirstSub probeOutcomeW.output.toList "time=".toList = none ∧
    (PingHost probeHostW probeOutcomeW).pingTime = "" :=
  ⟨rfl, by decide,
    (c9_probe_all_results [probeHostW] (fun _ => probeOutcomeW)).2.2.2 probeHostW
      probeOutcomeW (by decide)⟩

/-! ## Claim about the profile store round trip (C7) -/

/-- C7: for a configuration whose hosts all carry one of the three source
tags, `SaveConfig` retains exactly the manual-tagged hosts (ssh-config-
and termix-tagged entries are silently filtered out), and when every host
is manual-tagged, saving and reloading through `LoadConfigRaw` returns
the configuration unchanged. -/
theorem c7_save_load_roundtrip (c : Config)
    (henum : ∀ h ∈ c.hosts,
      h.source = "manual" ∨ h.source = "ssh-config" ∨ h.source = "termix") :
    (SaveConfig c).hosts = c.hosts.filter (fun h => h.source == "manual") ∧
    ((∀ h ∈ c.hosts, h.source = "manual") →
      LoadConfigRaw (.present (SaveConfig c)) = .ok c) := by
  constructor
  · unfold SaveConfig saveConfigHosts
    simp only []
    apply List.filter_congr
    intro h hm
    rcases henum h hm with hs | hs | hs <;> rw [hs] <;> rfl
  · intro hall
    have hkeep : saveConfigHosts c.hosts = c.hosts := by
      unfold saveConfigHosts
      apply List.filter_eq_self.mpr
      intro h hm
      rw [hall h hm]
      rfl
    unfold LoadConfigRaw loadStored SaveConfig
    rw [hkeep]

/-- Sample tagged hosts and a config holding them, for witnesses. -/
def hostManualW : Host := { probeHostW with «alias» := "m", hostname := "9.9.9.9" }

def hostSshW : Host := { probeHostW with «alias» := "s", source := "ssh-config" }

def hostTermixW : Host := { probeHostW with «alias» := "t", source := "termix" }

def presentW : Config := { defaultConfig with hosts := [hostManualW, hostSshW, hostTermixW] }

theorem c7_save_load_roundtrip_witness :
    (∀ h ∈ (presentW.hosts), h.source = "manual" ∨ h.source = "ssh-config" ∨ h.source = "termix") ∧
    (SaveConfig presentW).hosts = presentW.hosts.filter (fun h => h.source == "manual") := by
  exact ⟨by decide, (c7_save_load_roundtrip presentW (by decide)).1⟩

/-! ## Claims about the aggregation engine (C1, C3, C4, C8, C10) -/

/-- The unified list's aliases of a load result (empty on error). -/
def unifiedAliases (r : Except LoadError Config) : List String :=
  match r with
  | .ok cfg => aliasesOf cfg.hosts
  | .error _ => []

/-- The unified list's hostnames of a load result (empty on error). -/
def unifiedHostnames (r : Except LoadError Config) : List String :=
  match r with
  | .ok cfg => cfg.hosts.map (·.hostname)
  | .error _ => []

/-- The config of a successful load result (defaults on error). -/
def okConfig (r : Except LoadError Config) : Config :=
  match r with
  | .ok cfg => cfg
  | .error _ => defaultConfig

/-- Two stored hosts sharing the alias `"dup"`. -/
def hostDupA1 : Host := { probeHostW with «alias» := "dup", hostname := "1.1.1.1", source := "" }

def hostDupA2 : Host := { probeHostW with «alias» := "dup", hostname := "2.2.2.2", source := "" }

def dupStore : StoreState := .present { defaultConfig with hosts := [hostDupA1, hostDupA2] }

/-- C1 counterexample: a store containing two manual hosts with the same
alias yields a unified list that still contains both, so alias values in
the unified list are not unique. -/
theorem c1_duplicate_manual_alias_counterexample :
    unifiedAliases (LoadConfig dupStore (.ok []) unusedEnv 0 "/cfg").1 = ["dup", "dup"] ∧
    ¬ (unifiedAliases (LoadConfig dupStore (.ok []) unusedEnv 0 "/cfg").1).Nodup := by
  constructor
  · rfl
  · decide

theorem unified_nodup_of_cfg0 (cfg0 : Config) (sshResult : Except Unit (List Host))
    (tx : List Host) (h0 : (aliasesOf cfg0.hosts).Nodup) :
    (aliasesOf (addNonConflicting
      (sshStage { cfg0 with hosts := markManual cfg0.hosts } sshResult
        (manualStage { cfg0 with hosts := markManual cfg0.hosts })).1
      (sshStage { cfg0 with hosts := markManual cfg0.hosts } sshResult
        (manualStage { cfg0 with hosts := markManual cfg0.hosts })).2
      tx).1).Nodup := by
  have h1 : (aliasesOf ({ cfg0 with hosts := markManual cfg0.hosts } : Config).hosts).Nodup := by
    show (aliasesOf (markManual cfg0.hosts)).Nodup
    rw [aliasesOf_markManual]
    exact h0
  have h2 := manualStage_inv { cfg0 with hosts := markManual cfg0.hosts } h1
  have h3 := sshStage_inv { cfg0 with hosts := markManual cfg0.hosts } sshResult _ h2
  exact (addNonConflicting_nodup tx _ _ h3.1 h3.2).1

/-- C1 (amended): when the stored manual host list itself has pairwise
distinct aliases, the unified list's aliases are unique: cross-source
collisions are resolved first-seen in precedence order manual >
ssh-config > remote, and duplicates within the ssh-config and remote
batches are also dropped. (Duplicate aliases inside the manual store
itself are all retained, which is what refutes the original claim.) -/
theorem c1_unified_alias_nodup (store : StoreState) (sshResult : Except Unit (List Host))
    (env : FetchEnv) (now : Int) (path : String) (cfg : Config)
    (hstore : ∀ c0, store = .present c0 → (aliasesOf c0.hosts).Nodup)
    (hok : (LoadConfig store sshResult env now path).1 = .ok cfg) :
    (aliasesOf cfg.hosts).Nodup := by
  rcases hs : store with _ | _ | c0
  · subst hs
    obtain ⟨tx, _, hhosts⟩ := loadConfig_ok_shape .missing defaultConfig _ _ _ _ _ rfl hok
    rw [hhosts]
    exact unified_nodup_of_cfg0 defaultConfig sshResult tx (by decide)
  · subst hs
    unfold LoadConfig at hok
    simp only [loadStored] at hok
    exact Except.noConfusion hok
  · subst hs
    obtain ⟨tx, _, hhosts⟩ := loadConfig_ok_shape (.present c0) c0 _ _ _ _ _ rfl hok
    rw [hhosts]
    exact unified_nodup_of_cfg0 c0 sshResult tx (hstore c0 rfl)

def nodupStoreW : StoreState := .present { defaultConfig with hosts := [hostManualW] }

theorem c1_unified_alias_nodup_witness :
    (∀ c0, nodupStoreW = .present c0 → (aliasesOf c0.hosts).Nodup) ∧
    (aliasesOf (okConfig (LoadConfig nodupStoreW (.ok [hostSshW]) unusedEnv 0 "/cfg").1).hosts).Nodup :=
  ⟨fun c0 h => by cases h; decide,
    c1_unified_alias_nodup nodupStoreW (.ok [hostSshW]) unusedEnv 0 "/cfg" _
      (fun c0 h => by cases h; decide) rfl⟩



/-- The error classification of `LoadConfig`'s Termix-failure branch
(source lines 122-136): the distinguished `*AuthError` is propagated
unchanged; every other failure is wrapped with the config-path hint. -/
def classifyTermixFailure (e : TermixError) (path : String) : LoadError :=
  match e with
  | .authRequired m => .termixAuth m
  | _ => .termixWrapped e path

/-- A config with one manual host and the Termix source fully enabled. -/
def termixOnConfig : Config :=
  { defaultConfig with
      hosts := [hostManualW]
      sources := { sshBuddyEnabled := true, sshConfigEnabled := false, termixEnabled := true }
      termix := { enabled := true, baseURL := "http://termix.local", jwt := "tok", jwtExpiry := 1000000 } }

/-- Environment in which the hosts endpoint is unreachable. -/
def refusedEnv : FetchEnv :=
  { unusedEnv with fetch := fun _ => .transportErr "connection refused" }

/-- C3 counterexample: with a manual host in the store and the remote
fetch failing, `LoadConfig` returns only the error — the unified list it
had already computed (containing the manual host) is discarded, not
returned alongside the error. -/
theorem c3_partial_list_lost_counterexample :
    LoadConfig (.present termixOnConfig) (.ok []) refusedEnv 0 "/cfg" =
      (.error (.termixWrapped (.transport "connection refused") "/cfg"),
        .present termixOnConfig) ∧
    unifiedHostnames (LoadConfig (.present termixOnConfig) (.ok []) refusedEnv 0 "/cfg").1 = [] := by
  constructor
  · rfl
  · rfl

/-- C3 (amended): when the Termix source is enabled and its fetch fails,
`LoadConfig` returns only the classified error (the `AuthError`
propagated unchanged, anything else wrapped with the config-path hint)
and leaves the store untouched; the manual and ssh-config profiles, even
though they were computed before the remote fetch, are not returned. -/
theorem c3_remote_failure_error_only (store : StoreState) (cfg0 : Config)
    (sshResult : Except Unit (List Host)) (env : FetchEnv) (now : Int) (path : String)
    (e : TermixError)
    (hload : loadStored store = .ok cfg0)
    (ht : (cfg0.sources.termixEnabled && cfg0.termix.enabled && (cfg0.termix.baseURL != "")) = true)
    (hfetch : ((NewClient cfg0.termix.baseURL cfg0.termix.jwt cfg0.termix.jwtExpiry).FetchHosts
        "" "" now env).1 = .error e) :
    LoadConfig store sshResult env now path = (.error (classifyTermixFailure e path), store) := by
  unfold LoadConfig
  rw [hload]
  simp only []
  rw [if_pos ht]
  rcases hF : Client.FetchHosts
      (NewClient { cfg0 with hosts := markManual cfg0.hosts }.termix.baseURL
        { cfg0 with hosts := markManual cfg0.hosts }.termix.jwt
        { cfg0 with hosts := markManual cfg0.hosts }.termix.jwtExpiry) "" "" now env
    with ⟨res, cl, tr⟩
  rw [hF]
  have hres : res = .error e := by
    have hfetch' : ((NewClient { cfg0 with hosts := markManual cfg0.hosts }.termix.baseURL
        { cfg0 with hosts := markManual cfg0.hosts }.termix.jwt
        { cfg0 with hosts := markManual cfg0.hosts }.termix.jwtExpiry).FetchHosts
          "" "" now env).1 = .error e := hfetch
    rw [hF] at hfetch'
    exact hfetch'
  subst hres
  rcases e <;> rfl

theorem c3_remote_failure_error_only_witness :
    loadStored (.present termixOnConfig) = .ok termixOnConfig ∧
    (termixOnConfig.sources.termixEnabled && termixOnConfig.termix.enabled &&
      (termixOnConfig.termix.baseURL != "")) = true ∧
    LoadConfig (.present termixOnConfig) (.ok []) refusedEnv 0 "/cfg" =
      (.error (classifyTermixFailure (.transport "connection refused") "/cfg"),
        .present termixOnConfig) :=
  ⟨rfl, by decide,
    c3_remote_failure_error_only (.present termixOnConfig) termixOnConfig (.ok [])
      refusedEnv 0 "/cfg" (.transport "connection refused") rfl (by decide) rfl⟩



/-- C4: (1) an aggregation pass never writes the store — the `SaveConfig`
call inside `LoadConfig` is unreachable because a fetch issued with empty
credentials can only succeed with the token it started with, so disabled
sources' stored profiles survive for later re-enabling; (2) with the
SSHBuddy (manual) source disabled, the result is exactly what it would be
if the store held no hosts; (3) with the ssh-config source disabled, the
result ignores the native profiles entirely; (4) with the Termix source
disabled, the result is independent of the network. -/
theorem c4_disabled_source_frame :
    (∀ store sshResult env now path,
      (LoadConfig store sshResult env now path).2 = store) ∧
    (∀ (c0 : Config) sshResult env now path, c0.sources.sshBuddyEnabled = false →
      (LoadConfig (.present c0) sshResult env now path).1 =
        (LoadConfig (.present { c0 with hosts := [] }) sshResult env now path).1) ∧
    (∀ (c0 : Config) sshResult sshResult' env now path,
      c0.sources.sshConfigEnabled = false →
      (LoadConfig (.present c0) sshResult env now path).1 =
        (LoadConfig (.present c0) sshResult' env now path).1) ∧
    (∀ (c0 : Config) sshResult env env' now now' path,
      c0.sources.termixEnabled = false →
      (LoadConfig (.present c0) sshResult env now path).1 =
        (LoadConfig (.present c0) sshResult env' now' path).1) := by
  refine ⟨loadConfig_store_unchanged, ?_, ?_, ?_⟩
  · intro c0 sshResult env now path hb
    unfold LoadConfig
    simp only [loadStored, manualStage, sshStage, hb, Bool.false_eq_true, if_false]
    by_cases hterm : (c0.sources.termixEnabled && c0.termix.enabled && (c0.termix.baseURL != "")) = true
    · rw [if_pos hterm, if_pos hterm]
      rcases (NewClient c0.termix.baseURL c0.termix.jwt c0.termix.jwtExpiry).FetchHosts "" "" now env
        with ⟨res, cl, tr⟩
      rcases res with e | tx
      · rcases e <;> rfl
      · simp only []
        by_cases hj : (cl.jwt != c0.termix.jwt || cl.jwtExpiry != c0.termix.jwtExpiry) = true
        · rw [if_pos hj, if_pos hj]
        · rw [if_neg hj, if_neg hj]
    · rw [if_neg hterm, if_neg hterm]
  · intro c0 sshResult sshResult' env now path hc
    unfold LoadConfig
    simp only [loadStored, sshStage, hc, Bool.false_and, Bool.false_eq_true, if_false]
  · intro c0 sshResult env env' now now' path ht
    unfold LoadConfig
    simp only [loadStored, ht, Bool.false_and, Bool.false_eq_true, if_false]


/-- A store config with the manual source disabled. -/
def manualDisabledConfig : Config :=
  { defaultConfig with
      hosts := [hostManualW]
      sources := { sshBuddyEnabled := false, sshConfigEnabled := true, termixEnabled := false } }

theorem c4_disabled_source_frame_witness :
    manualDisabledConfig.sources.sshBuddyEnabled = false ∧
    (LoadConfig (.present manualDisabledConfig) (.ok [hostSshW]) unusedEnv 0 "/cfg").1 =
      (LoadConfig (.present { manualDisabledConfig with hosts := [] }) (.ok [hostSshW])
        unusedEnv 0 "/cfg").1 ∧
    (LoadConfig (.present manualDisabledConfig) (.ok [hostSshW]) unusedEnv 0 "/cfg").2 =
      .present manualDisabledConfig :=
  ⟨rfl,
    c4_disabled_source_frame.2.1 manualDisabledConfig (.ok [hostSshW]) unusedEnv 0 "/cfg" rfl,
    c4_disabled_source_frame.1 (.present manualDisabledConfig) (.ok [hostSshW]) unusedEnv 0 "/cfg"⟩

/-- A stored host with an empty alias, and a native host with the same
empty alias. -/
def hostEmptyManual : Host := { probeHostW with «alias» := "", hostname := "1.1.1.1", source := "" }

def hostEmptySsh : Host := { probeHostW with «alias» := "", hostname := "2.2.2.2", source := "" }

def emptyAliasConfig : Config := { defaultConfig with hosts := [hostEmptyManual] }

/-- C8 counterexample: with an empty-alias host in the manual store, an
empty-alias native host is dropped from the unified list instead of being
passed through — the empty alias does collide. -/
theorem c8_empty_alias_dropped_counterexample :
    unifiedHostnames (LoadConfig (.present emptyAliasConfig) (.ok [hostEmptySsh])
      unusedEnv 0 "/cfg").1 = ["1.1.1.1"] ∧
    unifiedAliases (LoadConfig (.present emptyAliasConfig) (.ok [hostEmptySsh])
      unusedEnv 0 "/cfg").1 = [""] := by
  constructor
  · rfl
  · rfl

/-- C8 (amended): an empty alias collides exactly like any other alias
value: when the enabled manual store already contains an empty-alias
host, every empty-alias profile of the unified list comes from the
(manual-marked) store, so later empty-alias ssh-config or termix
profiles were dropped rather than passed through. -/
theorem c8_empty_alias_collides (c0 : Config) (sshResult : Except Unit (List Host))
    (env : FetchEnv) (now : Int) (path : String) (cfg : Config)
    (henabled : c0.sources.sshBuddyEnabled = true)
    (hempty : "" ∈ aliasesOf c0.hosts)
    (hok : (LoadConfig (.present c0) sshResult env now path).1 = .ok cfg) :
    ∀ h ∈ cfg.hosts, h.«alias» = "" → h ∈ markManual c0.hosts := by
  intro h hm halias
  obtain ⟨tx, _, hhosts⟩ := loadConfig_ok_shape (.present c0) c0 _ _ _ _ _ rfl hok
  rw [hhosts] at hm
  have hemark : "" ∈ aliasesOf ({ c0 with hosts := markManual c0.hosts } : Config).hosts := by
    show "" ∈ aliasesOf (markManual c0.hosts)
    rw [aliasesOf_markManual]
    exact hempty
  have hseen1 : "" ∈ (manualStage { c0 with hosts := markManual c0.hosts }).2 := by
    rw [manualStage_seen { c0 with hosts := markManual c0.hosts } henabled]
    exact hemark
  rcases addNonConflicting_mem _ _ _ _ hm with h1 | ⟨_, h3⟩
  · rcases sshStage_mem _ _ _ _ h1 with h4 | ⟨_, h5⟩
    · exact manualStage_mem _ _ h4
    · rw [halias] at h5
      exact absurd hseen1 h5
  · rw [halias] at h3
    exact absurd (sshStage_seen_superset _ _ _ _ hseen1) h3

theorem c8_empty_alias_collides_witness :
    emptyAliasConfig.sources.sshBuddyEnabled = true ∧
    "" ∈ aliasesOf emptyAliasConfig.hosts ∧
    (∀ h ∈ (okConfig (LoadConfig (.present emptyAliasConfig) (.ok [hostEmptySsh])
        unusedEnv 0 "/cfg").1).hosts,
      h.«alias» = "" → h ∈ markManual emptyAliasConfig.hosts) :=
  ⟨rfl, by decide,
    c8_empty_alias_collides emptyAliasConfig (.ok [hostEmptySsh]) unusedEnv 0 "/cfg" _
      rfl (by decide) rfl⟩



theorem manualStage_enabled (cfg1 : Config) (h : cfg1.sources.sshBuddyEnabled = true) :
    (manualStage cfg1).1 = cfg1.hosts := by
  unfold manualStage
  rw [if_pos h]

/-- C10: every host of a successful aggregation carries a non-empty
source tag — stored hosts with an empty source are rewritten to
`"manual"`, native hosts are tagged `"ssh-config"`, remote hosts arrive
tagged `"termix"` — and, when the manual source is enabled, the unified
list starts with exactly the source-marked stored hosts. -/
theorem c10_unified_sources_tagged (store : StoreState) (sshResult : Except Unit (List Host))
    (env : FetchEnv) (now : Int) (path : String) (cfg : Config)
    (hok : (LoadConfig store sshResult env now path).1 = .ok cfg) :
    (∀ h ∈ cfg.hosts, h.source ≠ "") ∧
    (∀ c0, store = .present c0 → c0.sources.sshBuddyEnabled = true →
      ∃ rest, cfg.hosts = markManual c0.hosts ++ rest) := by
  have key : ∀ (cfg0 : Config), loadStored store = .ok cfg0 →
      (∀ h ∈ cfg.hosts, h.source ≠ "") ∧
      (cfg0.sources.sshBuddyEnabled = true →
        ∃ rest, cfg.hosts = markManual cfg0.hosts ++ rest) := by
    intro cfg0 hload
    obtain ⟨tx, htx, hhosts⟩ := loadConfig_ok_shape store cfg0 _ _ _ _ _ hload hok
    constructor
    · intro h hm
      rw [hhosts] at hm
      rcases addNonConflicting_mem _ _ _ _ hm with h1 | ⟨h2, _⟩
      · rcases sshStage_mem _ _ _ _ h1 with h4 | ⟨h5, _⟩
        · exact markManual_source_ne cfg0.hosts h (manualStage_mem _ _ h4)
        · rw [h5]
          decide
      · rw [htx h h2]
        decide
    · intro henab
      obtain ⟨e1, he1⟩ := sshStage_append { cfg0 with hosts := markManual cfg0.hosts }
        sshResult (manualStage { cfg0 with hosts := markManual cfg0.hosts })
      obtain ⟨e2, he2⟩ := addNonConflicting_eq_append tx
        (sshStage { cfg0 with hosts := markManual cfg0.hosts } sshResult
          (manualStage { cfg0 with hosts := markManual cfg0.hosts })).1
        (sshStage { cfg0 with hosts := markManual cfg0.hosts } sshResult
          (manualStage { cfg0 with hosts := markManual cfg0.hosts })).2
      refine ⟨e1 ++ e2, ?_⟩
      rw [hhosts, he2, he1,
        manualStage_enabled { cfg0 with hosts := markManual cfg0.hosts } henab,
        List.append_assoc]
  rcases hs : store with _ | _ | c0
  · subst hs
    refine ⟨(key defaultConfig rfl).1, ?_⟩
    intro c0 hcontra
    exact absurd hcontra (by simp)
  · subst hs
    unfold LoadConfig at hok
    simp only [loadStored] at hok
    exact Except.noConfusion hok
  · subst hs
    refine ⟨(key c0 rfl).1, ?_⟩
    intro c0' heq henab
    injection heq with heq
    subst heq
    exact (key _ rfl).2 henab

theorem c10_unified_sources_tagged_witness :
    (LoadConfig (.present presentW) (.ok [hostSshW]) unusedEnv 0 "/cfg").1 =
      .ok (okConfig (LoadConfig (.present presentW) (.ok [hostSshW]) unusedEnv 0 "/cfg").1) ∧
    (∀ h ∈ (okConfig (LoadConfig (.present presentW) (.ok [hostSshW]) unusedEnv 0 "/cfg").1).hosts,
      h.source ≠ "") :=
  ⟨rfl,
    (c10_unified_sources_tagged (.present presentW) (.ok [hostSshW]) unusedEnv 0 "/cfg" _ rfl).1⟩

end SSHBuddy
